import Mathlib

/-!
Shallow embedding of the order-book matching core of the MaiBroker backend
(services/matching-engine.ts, services/order-book.ts, services/websocket.ts,
utils.ts), together with theorems settling the specification claims.

Quantities are modelled as `Int` (JavaScript numbers holding integer lots),
prices and money as `Rat`.  State kept by the matching engine (pending
quantity confirmations and the declined-pair set) is explicit.  Database
effects are modelled as pure values: a transaction becomes a function from
the orders it reads to the rows it writes.  Logging, Redis TTLs and
WhatsApp text bodies are not modelled; the notification lists record which
user is notified with which event name.
-/

namespace MaiBroker

/-- Order side, `action` field in the source (`'BID' | 'OFFER'`). -/
inductive Side
  | BID
  | OFFER
deriving DecidableEq, Repr, BEq

/-- Order lifecycle status. -/
inductive Status
  | ACTIVE
  | MATCHED
  | CANCELLED
  | EXPIRED
deriving DecidableEq, Repr, BEq

/-- Which party of a quantity confirmation holds the smaller quantity. -/
inductive Party
  | BUYER
  | SELLER
deriving DecidableEq, Repr, BEq

/-- A persisted order row (prisma `order` model fields used by the engine). -/
structure Order where
  id : String
  userId : String
  action : Side
  asset : String
  price : Rat
  amount : Int
  remaining : Int
  matched : Bool
  counterparty : Option String
  status : Status
  createdAt : Int
deriving DecidableEq, Repr

/-- A persisted trade row, as created inside `executeMatch`. -/
structure Trade where
  asset : String
  price : Rat
  amount : Int
  buyerOrderId : String
  sellerOrderId : String
  commission : Rat
  buyerId : String
  sellerId : String
deriving DecidableEq, Repr

/-- Match classification computed in `executeMatch`. -/
inductive MatchType
  | FULL_MATCH
  | PARTIAL_FILL_BUYER
  | PARTIAL_FILL_SELLER
deriving DecidableEq, Repr

/-- `MatchingEngine.calculateCommission`:
`Math.round((amount * price * 0.001) * 100) / 100`, with JavaScript
`Math.round` being floor of `x + 1/2`, which is Mathlib `round` on `Rat`. -/
def calculateCommission (amount : Int) (price : Rat) : Rat :=
  ((round (((amount : Rat) * price * (1 / 1000)) * 100) : Int) : Rat) / 100

/-- Result of the atomic trade transaction in `MatchingEngine.executeMatch`:
the created trade row and the two updated order rows. -/
structure MatchExec where
  trade : Trade
  bidRemaining : Int
  offerRemaining : Int
  updatedBid : Order
  updatedOffer : Order
  matchType : MatchType
deriving DecidableEq, Repr

/-- `MatchingEngine.executeMatch` (the `prisma.$transaction` body): creates
one trade with `amount = min(bid.remaining, offer.remaining)` and
`price = offer.price`, decrements both orders, and flips each order to
`MATCHED` with the counterparty recorded exactly when its remaining reaches
zero. -/
def executeMatch (bid offer : Order) : MatchExec :=
  let tradeAmount := min bid.remaining offer.remaining
  let tradePrice := offer.price
  let commission := calculateCommission tradeAmount tradePrice
  let bidQuantity := bid.remaining
  let offerQuantity := offer.remaining
  let matchType :=
    if bidQuantity = offerQuantity then MatchType.FULL_MATCH
    else if bidQuantity < offerQuantity then MatchType.PARTIAL_FILL_BUYER
    else MatchType.PARTIAL_FILL_SELLER
  let trade : Trade :=
    { asset := bid.asset
      price := tradePrice
      amount := tradeAmount
      buyerOrderId := bid.id
      sellerOrderId := offer.id
      commission := commission
      buyerId := bid.userId
      sellerId := offer.userId }
  let bidRemaining := bid.remaining - tradeAmount
  let offerRemaining := offer.remaining - tradeAmount
  let updatedBid : Order :=
    { bid with
      remaining := bidRemaining
      matched := bidRemaining = 0
      counterparty := if bidRemaining = 0 then some offer.userId else none
      status := if bidRemaining = 0 then Status.MATCHED else Status.ACTIVE }
  let updatedOffer : Order :=
    { offer with
      remaining := offerRemaining
      matched := offerRemaining = 0
      counterparty := if offerRemaining = 0 then some bid.userId else none
      status := if offerRemaining = 0 then Status.MATCHED else Status.ACTIVE }
  { trade := trade
    bidRemaining := bidRemaining
    offerRemaining := offerRemaining
    updatedBid := updatedBid
    updatedOffer := updatedOffer
    matchType := matchType }

/-- State of a pending quantity confirmation (only `AWAITING_SMALLER` is
created by the current code; `AWAITING_LARGER` survives as a legacy guard). -/
inductive ConfState
  | AWAITING_SMALLER
  | AWAITING_LARGER
deriving DecidableEq, Repr

/-- A pending quantity confirmation as stored in
`MatchingEngine.pendingConfirmations` (the in-memory map). -/
structure PendingConfirmation where
  confirmationKey : String
  asset : String
  bidOrder : Order
  offerOrder : Order
  smallerParty : Party
  smallerQuantity : Int
  largerQuantity : Int
  additionalQuantity : Int
  confState : ConfState
deriving DecidableEq, Repr

/-- The mutable engine state relevant to the quantity-confirmation protocol:
`pendingConfirmations` (a map keyed by `asset:bidId:offerId`) and
`declinedPartialFills` (a set of the same keys). -/
structure EngineState where
  pendingConfirmations : List (String × PendingConfirmation)
  declinedPartialFills : List String
deriving DecidableEq, Repr

/-- `Map.get` on the pending-confirmation map. -/
def lookupConfirmation (st : EngineState) (key : String) : Option PendingConfirmation :=
  (st.pendingConfirmations.find? (fun p => p.1 = key)).map (fun p => p.2)

/-- `Map.delete` on the pending-confirmation map. -/
def deleteConfirmation (st : EngineState) (key : String) : EngineState :=
  { st with pendingConfirmations := st.pendingConfirmations.filter (fun p => p.1 ≠ key) }

/-- Comparator-first selection of the best bid:
source sorts bids by `Number(b.price) - Number(a.price) || a.createdAt - b.createdAt`
and takes element `[0]`, i.e. highest price, ties broken by earliest
`createdAt`, remaining ties by original position. -/
def betterBid (a b : Order) : Order :=
  if b.price > a.price then b
  else if a.price > b.price then a
  else if b.createdAt < a.createdAt then b
  else a

/-- Dual selection for the best offer: lowest price, earliest `createdAt`. -/
def betterOffer (a b : Order) : Order :=
  if b.price < a.price then b
  else if a.price < b.price then a
  else if b.createdAt < a.createdAt then b
  else a

/-- Sort-then-take-first over a nonempty list, expressed as a fold. -/
def selectBest (better : Order → Order → Order) (x : Order) (xs : List Order) : Order :=
  xs.foldl better x

/-- Outcome of one `MatchingEngine.processAssetMatching` pass for one asset,
restricted to the decision it takes (the effects follow the decision). -/
inductive MatchDecision
  | noOrders
  | execute (bestBid bestOffer : Order)
  | skipPendingConfirmation (key : String)
  | skipDeclined (key : String)
  | openConfirmation (key : String) (conf : PendingConfirmation)
  | noPriceMatch
deriving DecidableEq, Repr

/-- The pending-confirmation record built at the quantity-mismatch branch of
`processAssetMatching`. -/
def mkConfirmation (key asset : String) (bestBid bestOffer : Order) : PendingConfirmation :=
  let bidQuantity := bestBid.remaining
  let offerQuantity := bestOffer.remaining
  let smallerQuantity := min bidQuantity offerQuantity
  let largerQuantity := max bidQuantity offerQuantity
  { confirmationKey := key
    asset := asset
    bidOrder := bestBid
    offerOrder := bestOffer
    smallerParty := if bidQuantity < offerQuantity then Party.BUYER else Party.SELLER
    smallerQuantity := smallerQuantity
    largerQuantity := largerQuantity
    additionalQuantity := largerQuantity - smallerQuantity
    confState := ConfState.AWAITING_SMALLER }

/-- `MatchingEngine.processAssetMatching`, decision part: split the asset's
orders into bids and offers, select best bid and best offer, and on price
equality either execute immediately (equal quantities) or open a quantity
confirmation — unless one is already pending for the pair key or the key is
in the declined set.  Unequal prices fall through to alerts/negotiation
(`noPriceMatch` here).  Note the source compares only the selected best bid
and best offer; no owner equality is ever checked. -/
def processAssetMatching (st : EngineState) (asset : String) (orders : List Order) :
    MatchDecision :=
  let bids := orders.filter (fun o => o.action == Side.BID)
  let offers := orders.filter (fun o => o.action == Side.OFFER)
  match bids, offers with
  | [], _ => MatchDecision.noOrders
  | _, [] => MatchDecision.noOrders
  | b :: bs, f :: fs =>
    let bestBid := selectBest betterBid b bs
    let bestOffer := selectBest betterOffer f fs
    if bestBid.price = bestOffer.price then
      if bestBid.remaining ≠ bestOffer.remaining then
        let key := asset ++ ":" ++ bestBid.id ++ ":" ++ bestOffer.id
        if st.pendingConfirmations.any (fun p => p.1 == key) then
          MatchDecision.skipPendingConfirmation key
        else if st.declinedPartialFills.contains key then
          MatchDecision.skipDeclined key
        else
          MatchDecision.openConfirmation key (mkConfirmation key asset bestBid bestOffer)
      else
        MatchDecision.execute bestBid bestOffer
    else
      MatchDecision.noPriceMatch

/-- JavaScript truthiness of the optional `newQuantity` argument:
`undefined` and `0` are falsy, every other number is truthy. -/
def truthyQty : Option Int → Bool
  | none => false
  | some n => n ≠ 0

/-- Observable outcome of `MatchingEngine.handleQuantityConfirmationResponse`:
the engine state afterwards, the order rows written before re-entering
`executeMatch` (accept path), the executed match if any, and the WebSocket
notifications `(userId, event)` sent. -/
structure HandleResult where
  state : EngineState
  dbWrites : List Order
  executed : Option MatchExec
  notifications : List (String × String)
deriving DecidableEq, Repr

/-- `MatchingEngine.handleQuantityConfirmationResponse`.  On `accepted` with
a truthy `newQuantity`, the smaller party's order gets
`amount := newQuantity, remaining := newQuantity`, the confirmation is
deleted and `executeMatch` re-runs on the refreshed pair.  Otherwise (NO
answer, or the 60 s deadline firing with `accepted = false`) nothing is
written: both parties are notified `quantity:partial_fill_declined`, the key
joins the declined set and the confirmation is deleted. -/
def handleQuantityConfirmationResponse (st : EngineState) (key : String)
    (accepted : Bool) (newQuantity : Option Int) : HandleResult :=
  match lookupConfirmation st key with
  | none => { state := st, dbWrites := [], executed := none, notifications := [] }
  | some confirmation =>
    if confirmation.confState = ConfState.AWAITING_SMALLER then
      if accepted && truthyQty newQuantity then
        let n := newQuantity.getD 0
        let updatedBid :=
          if confirmation.smallerParty = Party.BUYER then
            { confirmation.bidOrder with amount := n, remaining := n }
          else confirmation.bidOrder
        let updatedOffer :=
          if confirmation.smallerParty = Party.BUYER then confirmation.offerOrder
          else { confirmation.offerOrder with amount := n, remaining := n }
        let exec := executeMatch updatedBid updatedOffer
        { state := deleteConfirmation st key
          dbWrites := [if confirmation.smallerParty = Party.BUYER then updatedBid else updatedOffer]
          executed := some exec
          notifications :=
            [(updatedBid.userId, "trade:executed"), (updatedOffer.userId, "trade:executed")] }
      else
        let smallerOrder :=
          if confirmation.smallerParty = Party.BUYER then confirmation.bidOrder
          else confirmation.offerOrder
        let largerOrder :=
          if confirmation.smallerParty = Party.BUYER then confirmation.offerOrder
          else confirmation.bidOrder
        { state :=
            { (deleteConfirmation st key) with
              declinedPartialFills := key :: st.declinedPartialFills }
          dbWrites := []
          executed := none
          notifications :=
            [(smallerOrder.userId, "quantity:partial_fill_declined"),
             (largerOrder.userId, "quantity:partial_fill_declined")] }
    else
      { state := deleteConfirmation st key, dbWrites := [], executed := none,
        notifications := [] }

/-- `normalizeOrderInput` from utils.ts: lowercase and trim both parts. -/
def normalizeOrderInput (product monthyear : String) : String × String :=
  (product.toLower.trim, monthyear.toLower.trim)

/-- Result of `OrderBookService.createOrder`: the persisted order (if any)
and the error list. -/
structure CreateResult where
  order : Option Order
  errors : List String
deriving DecidableEq, Repr

/-- `OrderBookService.createOrder`, with the per-owner active-order count
passed in for the `prisma.order.count` query and `now` for `createdAt`.
Validation is exactly the source's: `amount <= 0`, `price <= 0`,
`!product || product.length < 2`, `!monthyear || monthyear.length < 4`,
`userOrdersCount >= 50`.  On success the row is persisted with
`remaining = amount`, `status = 'ACTIVE'` and the normalized
`monthyear-product` asset. -/
def createOrder (userId : String) (action : Side) (price : Rat)
    (monthyear product : String) (amount : Int) (userOrdersCount : Nat)
    (orderId : String) (now : Int) : CreateResult :=
  let errors : List String :=
    (if amount ≤ 0 then ["Amount must be positive"] else [])
    ++ (if price ≤ 0 then ["Price must be positive"] else [])
    ++ (if product = "" ∨ product.length < 2 then ["Invalid product"] else [])
    ++ (if monthyear = "" ∨ monthyear.length < 4 then ["Invalid contract"] else [])
    ++ (if 50 ≤ userOrdersCount then ["Maximum 50 orders per user"] else [])
  if errors ≠ [] then
    { order := none, errors := errors }
  else
    let norm := normalizeOrderInput product monthyear
    let asset := norm.2 ++ "-" ++ norm.1
    { order := some
        { id := orderId
          userId := userId
          action := action
          asset := asset
          price := price
          amount := amount
          remaining := amount
          matched := false
          counterparty := none
          status := Status.ACTIVE
          createdAt := now }
      errors := [] }

/-- `OrderBookService.updateOrder`, data part: only allowed on an `ACTIVE`
order; positive-price and positive-amount validation; when the amount is
reduced below the current remaining, remaining is clamped down to it. -/
def updateOrderData (order : Order) (newPrice : Option Rat) (newAmount : Option Int) :
    Option Order :=
  if order.status ≠ Status.ACTIVE then none
  else
    match newPrice, newAmount with
    | some p, _ => if p ≤ 0 then none else
      match newAmount with
      | some a =>
        if a ≤ 0 then none
        else some { order with
          price := p
          amount := a
          remaining := if a < order.remaining then a else order.remaining }
      | none => some { order with price := p }
    | none, some a =>
      if a ≤ 0 then none
      else some { order with
        amount := a
        remaining := if a < order.remaining then a else order.remaining }
    | none, none => some order

/-- The active-order query used throughout order-book.ts:
`{ asset, status: 'ACTIVE', remaining: { gt: 0 } }`. -/
def activeOrdersFor (orders : List Order) (asset : String) : List Order :=
  orders.filter (fun o => o.asset == asset && o.status == Status.ACTIVE && 0 < o.remaining)

/-- `bids.length > 0 ? Math.max(...prices) : null`, as folded by the source. -/
def jsMaxPrice : List Rat → Option Rat
  | [] => none
  | p :: ps => some (ps.foldl max p)

/-- `offers.length > 0 ? Math.min(...prices) : null`. -/
def jsMinPrice : List Rat → Option Rat
  | [] => none
  | p :: ps => some (ps.foldl min p)

/-- Observable outcome of `OrderBookService.updateOrderBookInRedis`: the
refreshed cached book, the freshly computed best prices, the change flags
and whether a `market:price_changed` broadcast was emitted. -/
structure RedisBookUpdate where
  cachedBook : List Order
  bestBid : Option Rat
  bestOffer : Option Rat
  bidChanged : Bool
  offerChanged : Bool
  broadcastEmitted : Bool
deriving DecidableEq, Repr

/-- `OrderBookService.updateOrderBookInRedis`: reload the asset's active
orders, always rewrite the cached book, recompute current best bid/offer,
compare with the stored snapshot (`prevBid`, `prevOffer`), and broadcast the
price change only when either best value differs from the snapshot. -/
def updateOrderBookInRedis (allOrders : List Order) (asset : String)
    (prevBid prevOffer : Option Rat) : RedisBookUpdate :=
  let orders := activeOrdersFor allOrders asset
  let bids := orders.filter (fun o => o.action == Side.BID)
  let offers := orders.filter (fun o => o.action == Side.OFFER)
  let currentBestBid := jsMaxPrice (bids.map (fun o => o.price))
  let currentBestOffer := jsMinPrice (offers.map (fun o => o.price))
  let bidChanged := currentBestBid ≠ prevBid
  let offerChanged := currentBestOffer ≠ prevOffer
  { cachedBook := orders
    bestBid := currentBestBid
    bestOffer := currentBestOffer
    bidChanged := bidChanged
    offerChanged := offerChanged
    broadcastEmitted := bidChanged || offerChanged }

/-- A socket.io room targeted by the session fan-out. -/
inductive Room
  | userRoom (userId : String)
  | marketRoom (asset : String)
deriving DecidableEq, Repr

/-- Payload fields of an `order:updated` event consumed by
`WebSocketService.broadcastOrderUpdated`. -/
structure OrderEventData where
  orderId : String
  userId : String
  asset : String
  action : Side
  price : Rat
  amount : Int
deriving DecidableEq, Repr

/-- `WebSocketService.broadcastOrderUpdated` (current websocket service):
always emit to the owner's `user:<id>` room (when the id is truthy), and
additionally to the `market:<asset>` room only for OFFER-side updates; a
BID-side update is only logged, never broadcast beyond the owner. -/
def broadcastOrderUpdated (d : OrderEventData) : List (Room × String) :=
  (if d.userId ≠ "" then [(Room.userRoom d.userId, "order:updated")] else [])
  ++ (if d.asset ≠ "" ∧ d.action = Side.OFFER then
        [(Room.marketRoom d.asset, "order:updated")]
      else [])

/-- Modelled from the spec words (refinement side of claim C7): the
`monthyear` well-formedness pattern, three lowercase letters followed by two
digits. -/
def monthyearWellFormed (s : String) : Bool :=
  match s.toList with
  | [a, b, c, d, e] =>
    a.isLower && b.isLower && c.isLower && d.isDigit && e.isDigit
  | _ => false

/-- Modelled from the spec words (refinement side of claim C8): rounding a
monetary value to two decimal places, `round(x, 2)`. -/
def specRound2 (x : Rat) : Rat :=
  ((round (x * 100) : Int) : Rat) / 100

/-! Concrete scenario inputs used by the claim theorems and witnesses. -/

/-- Engine state with no pending confirmations and an empty declined set. -/
def emptyState : EngineState :=
  { pendingConfirmations := [], declinedPartialFills := [] }

/-- Self-trade scenario: one user holds both sides, `BID 10 @ 50`. -/
def c1bid : Order :=
  { id := "b1", userId := "u1", action := Side.BID, asset := "dec25-wheat",
    price := 50, amount := 10, remaining := 10, matched := false,
    counterparty := none, status := Status.ACTIVE, createdAt := 0 }

/-- Self-trade scenario: same user's `OFFER 10 @ 50` in the same contract. -/
def c1offer : Order :=
  { id := "o1", userId := "u1", action := Side.OFFER, asset := "dec25-wheat",
    price := 50, amount := 10, remaining := 10, matched := false,
    counterparty := none, status := Status.ACTIVE, createdAt := 1 }

/-- Quantity-mismatch scenario: buyer `uA` bids 15 lots at 100. -/
def c5bid : Order :=
  { id := "b2", userId := "uA", action := Side.BID, asset := "jan26-silver",
    price := 100, amount := 15, remaining := 15, matched := false,
    counterparty := none, status := Status.ACTIVE, createdAt := 0 }

/-- Quantity-mismatch scenario: seller `uB` offers 50 lots at 100. -/
def c5offer : Order :=
  { id := "o2", userId := "uB", action := Side.OFFER, asset := "jan26-silver",
    price := 100, amount := 50, remaining := 50, matched := false,
    counterparty := none, status := Status.ACTIVE, createdAt := 1 }

/-- The pair key `asset:bidId:offerId` for the mismatch scenario. -/
def c5key : String := "jan26-silver:b2:o2"

/-- The confirmation the matcher opens for the mismatch scenario. -/
def c5conf : PendingConfirmation :=
  mkConfirmation c5key "jan26-silver" c5bid c5offer

/-- Engine state holding the pending confirmation of the mismatch scenario. -/
def c5state : EngineState :=
  { pendingConfirmations := [(c5key, c5conf)], declinedPartialFills := [] }

/-- Exact-match scenario: buyer posts `BID 50 jan26-silver @ 100.00`. -/
def c8bid : Order :=
  { id := "B", userId := "buyer1", action := Side.BID, asset := "jan26-silver",
    price := 100, amount := 50, remaining := 50, matched := false,
    counterparty := none, status := Status.ACTIVE, createdAt := 1 }

/-- Exact-match scenario: seller posts `OFFER 50 jan26-silver @ 100.00`. -/
def c8offer : Order :=
  { id := "S", userId := "seller1", action := Side.OFFER, asset := "jan26-silver",
    price := 100, amount := 50, remaining := 50, matched := false,
    counterparty := none, status := Status.ACTIVE, createdAt := 0 }

/-- The bid of the mismatch scenario after its owner raises the order
quantity to 20 through `OrderBookService.updateOrder` (20 is not below the
current remaining 15, so remaining is not clamped). -/
def c5bidUpdated : Order :=
  { c5bid with amount := 20 }

/-- An OFFER-side `order:updated` payload for the fan-out witness. -/
def c9offerData : OrderEventData :=
  { orderId := "o9", userId := "seller9", asset := "jan26-silver",
    action := Side.OFFER, price := 101, amount := 5 }

/-- A BID-side `order:updated` payload for the fan-out witness. -/
def c9bidData : OrderEventData :=
  { orderId := "b9", userId := "buyer9", asset := "jan26-silver",
    action := Side.BID, price := 99, amount := 5 }

/-! Helper lemmas shared by the claim theorems. -/

/-- Deleting a key from the pending-confirmation map makes it unfindable. -/
theorem lookupConfirmation_delete (st : EngineState) (key : String) :
    lookupConfirmation (deleteConfirmation st key) key = none := by
  unfold lookupConfirmation deleteConfirmation
  generalize st.pendingConfirmations = l
  induction l with
  | nil => rfl
  | cons a as ih =>
    by_cases h : a.1 = key <;>
      simp_all [List.filter_cons, List.find?_cons]

/-- The fold implementing `Math.max(...)` returns one of the list elements. -/
theorem foldl_max_mem (p : Rat) (ps : List Rat) : ps.foldl max p ∈ p :: ps := by
  induction ps generalizing p with
  | nil => simp
  | cons q qs ih =>
    have h := ih (max p q)
    rw [List.mem_cons] at h
    rw [List.foldl_cons]
    rcases h with h | h
    · rcases max_choice p q with hm | hm
      · rw [h, hm]; exact List.mem_cons_self _ _
      · rw [h, hm]; exact List.mem_cons_of_mem _ (List.mem_cons_self _ _)
    · exact List.mem_cons_of_mem _ (List.mem_cons_of_mem _ h)

/-- The fold implementing `Math.max(...)` bounds every list element. -/
theorem le_foldl_max (p : Rat) (ps : List Rat) : ∀ x ∈ p :: ps, x ≤ ps.foldl max p := by
  induction ps generalizing p with
  | nil =>
    intro x hx
    rw [List.mem_singleton] at hx
    simp [hx]
  | cons q qs ih =>
    intro x hx
    rw [List.foldl_cons]
    rw [List.mem_cons, List.mem_cons] at hx
    rcases hx with hx | hx | hx
    · rw [hx]
      exact le_trans (le_max_left p q) (ih (max p q) _ (List.mem_cons_self _ _))
    · rw [hx]
      exact le_trans (le_max_right p q) (ih (max p q) _ (List.mem_cons_self _ _))
    · exact ih (max p q) x (List.mem_cons_of_mem _ hx)

/-- The fold implementing `Math.min(...)` returns one of the list elements. -/
theorem foldl_min_mem (p : Rat) (ps : List Rat) : ps.foldl min p ∈ p :: ps := by
  induction ps generalizing p with
  | nil => simp
  | cons q qs ih =>
    have h := ih (min p q)
    rw [List.mem_cons] at h
    rw [List.foldl_cons]
    rcases h with h | h
    · rcases min_choice p q with hm | hm
      · rw [h, hm]; exact List.mem_cons_self _ _
      · rw [h, hm]; exact List.mem_cons_of_mem _ (List.mem_cons_self _ _)
    · exact List.mem_cons_of_mem _ (List.mem_cons_of_mem _ h)

/-- The fold implementing `Math.min(...)` lower-bounds every list element. -/
theorem foldl_min_le (p : Rat) (ps : List Rat) : ∀ x ∈ p :: ps, ps.foldl min p ≤ x := by
  induction ps generalizing p with
  | nil =>
    intro x hx
    rw [List.mem_singleton] at hx
    simp [hx]
  | cons q qs ih =>
    intro x hx
    rw [List.foldl_cons]
    rw [List.mem_cons, List.mem_cons] at hx
    rcases hx with hx | hx | hx
    · rw [hx]
      exact le_trans (ih (min p q) _ (List.mem_cons_self _ _)) (min_le_left p q)
    · rw [hx]
      exact le_trans (ih (min p q) _ (List.mem_cons_self _ _)) (min_le_right p q)
    · exact ih (min p q) x (List.mem_cons_of_mem _ hx)

/-- Characterization of `jsMaxPrice`: it returns a member bounding the list. -/
theorem jsMaxPrice_spec (l : List Rat) (m : Rat) (h : jsMaxPrice l = some m) :
    m ∈ l ∧ ∀ x ∈ l, x ≤ m := by
  cases l with
  | nil => cases h
  | cons p ps =>
    simp only [jsMaxPrice, Option.some_inj] at h
    rw [← h]
    exact ⟨foldl_max_mem p ps, le_foldl_max p ps⟩

/-- Characterization of `jsMinPrice`: it returns a member below the list. -/
theorem jsMinPrice_spec (l : List Rat) (m : Rat) (h : jsMinPrice l = some m) :
    m ∈ l ∧ ∀ x ∈ l, m ≤ x := by
  cases l with
  | nil => cases h
  | cons p ps =>
    simp only [jsMinPrice, Option.some_inj] at h
    rw [← h]
    exact ⟨foldl_min_mem p ps, foldl_min_le p ps⟩

/-- `jsMaxPrice` is `none` exactly on the empty list. -/
theorem jsMaxPrice_eq_none (l : List Rat) : jsMaxPrice l = none ↔ l = [] := by
  cases l <;> simp [jsMaxPrice]

/-- `jsMinPrice` is `none` exactly on the empty list. -/
theorem jsMinPrice_eq_none (l : List Rat) : jsMinPrice l = none ↔ l = [] := by
  cases l <;> simp [jsMinPrice]

/-! Claim theorems. -/

/-- Claim C1 (code bug evidence): the matcher never compares owners.  With a
single user `u1` holding both `BID 10 @ 50` and `OFFER 10 @ 50` in
`dec25-wheat`, the matching pass selects the pair for immediate execution
and the executed trade records `u1` as both buyer and seller, contradicting
the specified self-trade guard. -/
theorem c1_self_trade_executed :
    processAssetMatching emptyState "dec25-wheat" [c1bid, c1offer]
      = MatchDecision.execute c1bid c1offer
    ∧ (executeMatch c1bid c1offer).trade.buyerId
        = (executeMatch c1bid c1offer).trade.sellerId := by
  constructor
  · rfl
  · rfl

/-- Claim C3: `executeMatch` creates the one trade of the transaction with
`qty = min(bid.remaining, offer.remaining)` and `price = offer.price`,
decrements both orders by that qty, and flips an order to `MATCHED` with the
counterparty recorded exactly when its remaining reaches zero, leaving it
`ACTIVE` otherwise. -/
theorem c3_execute_match_correct (bid offer : Order) :
    (executeMatch bid offer).trade.amount = min bid.remaining offer.remaining
    ∧ (executeMatch bid offer).trade.price = offer.price
    ∧ (executeMatch bid offer).updatedBid.remaining
        = bid.remaining - (executeMatch bid offer).trade.amount
    ∧ (executeMatch bid offer).updatedOffer.remaining
        = offer.remaining - (executeMatch bid offer).trade.amount
    ∧ ((executeMatch bid offer).updatedBid.status = Status.MATCHED
        ↔ (executeMatch bid offer).updatedBid.remaining = 0)
    ∧ ((executeMatch bid offer).updatedBid.status = Status.ACTIVE
        ↔ (executeMatch bid offer).updatedBid.remaining ≠ 0)
    ∧ ((executeMatch bid offer).updatedBid.counterparty = some offer.userId
        ↔ (executeMatch bid offer).updatedBid.remaining = 0)
    ∧ ((executeMatch bid offer).updatedOffer.status = Status.MATCHED
        ↔ (executeMatch bid offer).updatedOffer.remaining = 0)
    ∧ ((executeMatch bid offer).updatedOffer.status = Status.ACTIVE
        ↔ (executeMatch bid offer).updatedOffer.remaining ≠ 0)
    ∧ ((executeMatch bid offer).updatedOffer.counterparty = some bid.userId
        ↔ (executeMatch bid offer).updatedOffer.remaining = 0) := by
  unfold executeMatch
  by_cases hb : bid.remaining - min bid.remaining offer.remaining = 0 <;>
    by_cases hf : offer.remaining - min bid.remaining offer.remaining = 0 <;>
      simp [hb, hf]

/-- Claim C8: the commission of every trade is `round(qty * price * 0.001, 2)`
(the source formula coincides with the spec rounding), and the concrete
exact-match scenario `OFFER 50 @ 100.00` versus `BID 50 @ 100.00` yields a
single trade with qty 50, price 100, commission 5, both orders `MATCHED`
with zero remaining. -/
theorem c8_commission_formula :
    (∀ (amount : Int) (price : Rat),
        calculateCommission amount price
          = specRound2 ((amount : Rat) * price * (1 / 1000)))
    ∧ (executeMatch c8bid c8offer).trade.amount = 50
    ∧ (executeMatch c8bid c8offer).trade.price = 100
    ∧ (executeMatch c8bid c8offer).trade.commission = 5
    ∧ (executeMatch c8bid c8offer).updatedBid.status = Status.MATCHED
    ∧ (executeMatch c8bid c8offer).updatedOffer.status = Status.MATCHED
    ∧ (executeMatch c8bid c8offer).updatedBid.remaining = 0
    ∧ (executeMatch c8bid c8offer).updatedOffer.remaining = 0 := by
  refine ⟨fun amount price => rfl, rfl, rfl, ?_, rfl, rfl, rfl, rfl⟩
  simp [executeMatch, c8bid, c8offer, calculateCommission]
  norm_num [round_eq]

/-- Claim C10: a confirmation response carrying `accepted = true` but no
positive new quantity (`newQuantity` absent or `0`, both falsy in the
source's `accepted && newQuantity` guard) is processed exactly like a
decline, and in particular writes no order rows and executes no trade. -/
theorem c10_accept_without_qty_is_decline (st : EngineState) (key : String) :
    handleQuantityConfirmationResponse st key true none
      = handleQuantityConfirmationResponse st key false none
    ∧ handleQuantityConfirmationResponse st key true (some 0)
      = handleQuantityConfirmationResponse st key false none
    ∧ (handleQuantityConfirmationResponse st key true none).executed = none
    ∧ (handleQuantityConfirmationResponse st key true none).dbWrites = []
    ∧ (handleQuantityConfirmationResponse st key true (some 0)).executed = none
    ∧ (handleQuantityConfirmationResponse st key true (some 0)).dbWrites = [] := by
  unfold handleQuantityConfirmationResponse
  cases h : lookupConfirmation st key with
  | none => simp
  | some conf =>
    by_cases hs : conf.confState = ConfState.AWAITING_SMALLER <;>
      simp [hs, truthyQty]

/-- Claim C2: when the smaller party declines (`accepted = false`, which is
also what the deadline timer passes on expiry), the handler clears the
confirmation, records the pair key in the declined set, notifies both
parties with `quantity:partial_fill_declined`, writes no order rows (so
both orders keep their status and quantities), and executes no trade — in
particular no partial trade for the smaller quantity. -/
theorem c2_decline_no_trade (st : EngineState) (key : String)
    (conf : PendingConfirmation) (nq : Option Int)
    (hlook : lookupConfirmation st key = some conf)
    (hstate : conf.confState = ConfState.AWAITING_SMALLER) :
    (handleQuantityConfirmationResponse st key false nq).executed = none
    ∧ (handleQuantityConfirmationResponse st key false nq).dbWrites = []
    ∧ (handleQuantityConfirmationResponse st key false nq).state.declinedPartialFills
        = key :: st.declinedPartialFills
    ∧ lookupConfirmation (handleQuantityConfirmationResponse st key false nq).state key
        = none
    ∧ (handleQuantityConfirmationResponse st key false nq).notifications
        = [((if conf.smallerParty = Party.BUYER then conf.bidOrder
             else conf.offerOrder).userId, "quantity:partial_fill_declined"),
           ((if conf.smallerParty = Party.BUYER then conf.offerOrder
             else conf.bidOrder).userId, "quantity:partial_fill_declined")] := by
  unfold handleQuantityConfirmationResponse
  rw [hlook]
  simp only [hstate, if_pos rfl, Bool.false_and, Bool.and_eq_true]
  refine ⟨by simp, by simp, by simp, ?_, by simp⟩
  simpa using lookupConfirmation_delete st key

/-- Witness for claim C2: the decline outcome at the concrete mismatch
scenario (`BID 15 @ 100` by `uA` versus `OFFER 50 @ 100` by `uB`). -/
theorem c2_decline_no_trade_witness :
    (handleQuantityConfirmationResponse c5state c5key false none).executed = none
    ∧ (handleQuantityConfirmationResponse c5state c5key false none).dbWrites = []
    ∧ (handleQuantityConfirmationResponse c5state c5key false none).state.declinedPartialFills
        = [c5key] := by
  have h := c2_decline_no_trade c5state c5key c5conf none (by rfl) (by rfl)
  exact ⟨h.1, h.2.1, h.2.2.1⟩

/-- Claim C4, counterexample: at the concrete quantity confirmation where
buyer `uA` holds 15 lots against 50 offered, an accept with new quantity 50
writes the bid row back with `remaining = 50`, strictly above the previous
`remaining = 15`; `remaining_qty` therefore does not decrease monotonically
over time. -/
theorem c4_accept_increases_remaining :
    (handleQuantityConfirmationResponse c5state c5key true (some 50)).dbWrites
      = [{ c5bid with amount := 50, remaining := 50 }]
    ∧ c5bid.remaining = 15
    ∧ c5bid.remaining < ({ c5bid with amount := 50, remaining := 50 } : Order).remaining := by
  refine ⟨rfl, rfl, by norm_num [c5bid]⟩

/-- Claim C4 as amended: non-negative remaining bounded by the original
amount is preserved by `executeMatch` (which also never increases
remaining), and the accept-path rewrite `amount := n, remaining := n` with a
positive n re-establishes the bound — although that rewrite raises
`remaining` from the smaller to the larger quantity, so global monotone
decrease does not hold across an accepted quantity confirmation. -/
theorem c4_bounds_preserved (bid offer o : Order) (n : Int)
    (hb0 : 0 ≤ bid.remaining) (hf0 : 0 ≤ offer.remaining)
    (hb : bid.remaining ≤ bid.amount) (hf : offer.remaining ≤ offer.amount)
    (hn : 0 < n) :
    (0 ≤ (executeMatch bid offer).updatedBid.remaining
      ∧ (executeMatch bid offer).updatedBid.remaining
          ≤ (executeMatch bid offer).updatedBid.amount
      ∧ (executeMatch bid offer).updatedBid.remaining ≤ bid.remaining)
    ∧ (0 ≤ (executeMatch bid offer).updatedOffer.remaining
      ∧ (executeMatch bid offer).updatedOffer.remaining
          ≤ (executeMatch bid offer).updatedOffer.amount
      ∧ (executeMatch bid offer).updatedOffer.remaining ≤ offer.remaining)
    ∧ (0 ≤ ({ o with amount := n, remaining := n } : Order).remaining
      ∧ ({ o with amount := n, remaining := n } : Order).remaining
          ≤ ({ o with amount := n, remaining := n } : Order).amount) := by
  refine ⟨⟨?_, ?_, ?_⟩, ⟨?_, ?_, ?_⟩, ?_, ?_⟩ <;>
    simp only [executeMatch] <;> omega

/-- Witness for claim C4's amended theorem at the concrete mismatch pair. -/
theorem c4_bounds_preserved_witness :
    0 ≤ (executeMatch c5bid c5offer).updatedBid.remaining
    ∧ (executeMatch c5bid c5offer).updatedBid.remaining ≤ c5bid.remaining := by
  have h := c4_bounds_preserved c5bid c5offer c5bid 50 (by norm_num [c5bid])
    (by norm_num [c5offer]) (by norm_num [c5bid]) (by norm_num [c5offer]) (by norm_num)
  exact ⟨h.1.1, h.1.2.2⟩

/-- Claim C5, counterexample: after the smaller party declines the mismatch
pair, its key sits in the declined set; the owner then updates the bid's
quantity (15 → 20 lots) — a material change — yet the key is still in the
set and the next matching pass for the very same pair is suppressed with
`skipDeclined` instead of opening a fresh confirmation.  The declined-set
entry is never removed. -/
theorem c5_declined_key_persists_after_update :
    updateOrderData c5bid none (some 20) = some c5bidUpdated
    ∧ (handleQuantityConfirmationResponse c5state c5key false none).state.declinedPartialFills.contains
        c5key = true
    ∧ processAssetMatching
        (handleQuantityConfirmationResponse c5state c5key false none).state
        "jan26-silver" [c5bidUpdated, c5offer]
      = MatchDecision.skipDeclined c5key := by
  refine ⟨rfl, rfl, rfl⟩

/-- Claim C5 as amended: the declined set only ever grows — the handler (its
sole writer) either leaves it unchanged or prepends the declined key, so an
entry, once recorded, survives every later response for the lifetime of the
process. -/
theorem c5_declined_set_never_shrinks (st : EngineState) (key : String)
    (accepted : Bool) (nq : Option Int) :
    List.Sublist st.declinedPartialFills
      ((handleQuantityConfirmationResponse st key accepted nq).state.declinedPartialFills) := by
  unfold handleQuantityConfirmationResponse
  cases h : lookupConfirmation st key with
  | none => simp
  | some conf =>
    by_cases hs : conf.confState = ConfState.AWAITING_SMALLER
    · by_cases hacc : (accepted && truthyQty nq) = true
      · simp [hs, hacc, deleteConfirmation]
      · simp [hs, hacc, deleteConfirmation]
    · simp [hs, deleteConfirmation]

/-- Claim C6: the cache refresh always rewrites the per-contract book, the
freshly computed best bid is exactly the maximum active-bid price (and the
best offer the minimum active-offer price, `none` when the side is empty),
and a price-changed broadcast is emitted precisely when either best value
differs from the stored snapshot. -/
theorem c6_price_change_broadcast (allOrders : List Order) (asset : String)
    (prevBid prevOffer : Option Rat) :
    (updateOrderBookInRedis allOrders asset prevBid prevOffer).cachedBook
      = activeOrdersFor allOrders asset
    ∧ ((updateOrderBookInRedis allOrders asset prevBid prevOffer).broadcastEmitted = true
        ↔ ((updateOrderBookInRedis allOrders asset prevBid prevOffer).bestBid ≠ prevBid
           ∨ (updateOrderBookInRedis allOrders asset prevBid prevOffer).bestOffer ≠ prevOffer))
    ∧ (∀ m, (updateOrderBookInRedis allOrders asset prevBid prevOffer).bestBid = some m →
        m ∈ (((activeOrdersFor allOrders asset).filter
               (fun o => o.action == Side.BID)).map (fun o => o.price))
        ∧ ∀ p ∈ (((activeOrdersFor allOrders asset).filter
               (fun o => o.action == Side.BID)).map (fun o => o.price)), p ≤ m)
    ∧ (∀ m, (updateOrderBookInRedis allOrders asset prevBid prevOffer).bestOffer = some m →
        m ∈ (((activeOrdersFor allOrders asset).filter
               (fun o => o.action == Side.OFFER)).map (fun o => o.price))
        ∧ ∀ p ∈ (((activeOrdersFor allOrders asset).filter
               (fun o => o.action == Side.OFFER)).map (fun o => o.price)), m ≤ p)
    ∧ ((updateOrderBookInRedis allOrders asset prevBid prevOffer).bestBid = none
        ↔ ((activeOrdersFor allOrders asset).filter
             (fun o => o.action == Side.BID)).map (fun o => o.price) = [])
    ∧ ((updateOrderBookInRedis allOrders asset prevBid prevOffer).bestOffer = none
        ↔ ((activeOrdersFor allOrders asset).filter
             (fun o => o.action == Side.OFFER)).map (fun o => o.price) = []) := by
  refine ⟨rfl, ?_, ?_, ?_, ?_, ?_⟩
  · simp [updateOrderBookInRedis]
  · intro m hm
    exact jsMaxPrice_spec _ m hm
  · intro m hm
    exact jsMinPrice_spec _ m hm
  · exact jsMaxPrice_eq_none _
  · exact jsMinPrice_eq_none _

/-- Claim C7, counterexample: the source validates only that `monthyear` is
at least four characters long, not the spec pattern of three lowercase
letters followed by two digits.  `createOrder` with `monthyear = "zzzzz"`
(which fails the pattern) reports no error and persists the order. -/
theorem c7_monthyear_pattern_not_enforced :
    monthyearWellFormed "zzzzz" = false
    ∧ (createOrder "u1" Side.BID 10 "zzzzz" "silver" 5 0 "ord1" 0).errors = []
    ∧ (∃ o, (createOrder "u1" Side.BID 10 "zzzzz" "silver" 5 0 "ord1" 0).order = some o
        ∧ o.remaining = 5 ∧ o.status = Status.ACTIVE ∧ o.userId = "u1") := by
  exact ⟨rfl, rfl, ⟨_, rfl, rfl, rfl, rfl⟩⟩

/-- Claim C7 as amended: `createOrder` returns a non-empty error set and
persists nothing exactly when `price ≤ 0`, or `qty ≤ 0`, or the product is
shorter than 2 characters, or the monthyear is shorter than 4 characters,
or the owner already has 50 active orders; otherwise it persists the order
with `remaining_qty = qty` and `status = ACTIVE`. -/
theorem c7_create_order_validation (userId : String) (action : Side) (price : Rat)
    (monthyear product : String) (amount : Int) (cnt : Nat) (oid : String) (now : Int) :
    ((createOrder userId action price monthyear product amount cnt oid now).errors = []
      ↔ (0 < amount ∧ 0 < price ∧ 2 ≤ product.length ∧ 4 ≤ monthyear.length ∧ cnt < 50))
    ∧ ((∃ o, (createOrder userId action price monthyear product amount cnt oid now).order
            = some o ∧ o.remaining = amount ∧ o.status = Status.ACTIVE)
        ↔ (createOrder userId action price monthyear product amount cnt oid now).errors = []) := by
  have hprod : (product = "" ∨ product.length < 2) ↔ product.length < 2 := by
    constructor
    · rintro (h | h)
      · rw [h]
        decide
      · exact h
    · exact fun h => Or.inr h
  have hmy : (monthyear = "" ∨ monthyear.length < 4) ↔ monthyear.length < 4 := by
    constructor
    · rintro (h | h)
      · rw [h]
        decide
      · exact h
    · exact fun h => Or.inr h
  unfold createOrder
  by_cases h1 : amount ≤ 0 <;> by_cases h2 : price ≤ 0 <;>
    by_cases h3 : product = "" ∨ product.length < 2 <;>
      by_cases h4 : monthyear = "" ∨ monthyear.length < 4 <;>
        by_cases h5 : 50 ≤ cnt <;>
          simp_all [not_le, not_lt, not_or]

/-- Claim C9: an `order:updated` fan-out for an OFFER-side order reaches the
owner's room and the contract's market room, while a BID-side update
reaches the owner's room only. -/
theorem c9_order_updated_routing (d : OrderEventData)
    (hu : d.userId ≠ "") (ha : d.asset ≠ "") :
    (d.action = Side.OFFER →
        broadcastOrderUpdated d
          = [(Room.userRoom d.userId, "order:updated"),
             (Room.marketRoom d.asset, "order:updated")])
    ∧ (d.action = Side.BID →
        broadcastOrderUpdated d = [(Room.userRoom d.userId, "order:updated")]) := by
  unfold broadcastOrderUpdated
  constructor <;> intro h <;> simp [h, hu, ha]

/-- Witness for claim C9 at concrete OFFER-side and BID-side payloads. -/
theorem c9_order_updated_routing_witness :
    broadcastOrderUpdated c9offerData
      = [(Room.userRoom "seller9", "order:updated"),
         (Room.marketRoom "jan26-silver", "order:updated")]
    ∧ broadcastOrderUpdated c9bidData
      = [(Room.userRoom "buyer9", "order:updated")] := by
  constructor
  · exact (c9_order_updated_routing c9offerData (by decide) (by decide)).1 rfl
  · exact (c9_order_updated_routing c9bidData (by decide) (by decide)).2 rfl

end MaiBroker
